import Mathlib

/-!
Verification development for the gk20a color decompression engine (CDE)
driver, drivers/gpu/nvgpu/gk20a/cde_gk20a.c.

The driver code is shallowly embedded: machine integers become Nat with
explicit reductions modulo 2 to the 64 where overflow matters, in-place
mutation becomes explicit state passing, and the kernel services the driver
calls into (DMA allocation, scatter-gather tables, GPU MMU mapping, channel
submission) become oracle functions supplied through environment records.
Constants and data layouts that live in headers absent from the source tree
(cde_gk20a.h, nvhost ioctl headers) are modelled from the specification and
marked as such in their doc comments.
-/

/-- Linux errno value EINVAL, returned negated by the driver. -/
def EINVAL : Int := 22

/-- Linux errno value ENOMEM, returned negated by the driver. -/
def ENOMEM : Int := 12

/-- Linux errno value ENOSYS, returned negated by the driver. -/
def ENOSYS : Int := 38

/-- Modulus of a 64-bit unsigned machine word. -/
def U64MOD : Nat := 2 ^ 64

/-- Modulus of a 32-bit unsigned machine word. -/
def U32MOD : Nat := 2 ^ 32

/-! ## Binary patcher: gk20a_replace_data

The function gk20a_replace_data takes a pointer into an allocated buffer, a
value type (32-bit, 64-bit little endian, or 64-bit stored with the two
32-bit halves swapped), a signed shift, a 64-bit mask and a 64-bit value.
We model the pointed-to memory as one 64-bit cell, little endian, so a
32-bit access reads or writes the low 32 bits of the cell.
-/

/-- Value type discriminants of gk20a_replace_data. The numeric codes of
TYPE_PARAM_TYPE_U32, TYPE_PARAM_TYPE_U64_LITTLE and TYPE_PARAM_TYPE_U64_BIG
live in the missing header, so the discriminant is modelled as an inductive
type; a separate decoder maps raw codes to it. -/
inductive CdeParamType where
  | u32
  | u64little
  | u64big
  deriving DecidableEq, Repr

/-- Modelled from the spec: numeric code of TYPE_PARAM_TYPE_U32 (value not in
src; only distinctness of the three codes is used). -/
def TYPE_PARAM_TYPE_U32 : Nat := 1

/-- Modelled from the spec: numeric code of TYPE_PARAM_TYPE_U64_LITTLE. -/
def TYPE_PARAM_TYPE_U64_LITTLE : Nat := 2

/-- Modelled from the spec: numeric code of TYPE_PARAM_TYPE_U64_BIG. -/
def TYPE_PARAM_TYPE_U64_BIG : Nat := 3

/-- Decoder from the raw firmware type code to the value type; any other
code is the unknown-type error case of gk20a_replace_data. -/
def decodeParamType (code : Nat) : Option CdeParamType :=
  if code = TYPE_PARAM_TYPE_U32 then some CdeParamType.u32
  else if code = TYPE_PARAM_TYPE_U64_LITTLE then some CdeParamType.u64little
  else if code = TYPE_PARAM_TYPE_U64_BIG then some CdeParamType.u64big
  else none

/-- Swap of the two 32-bit halves of a 64-bit word, exactly the C expression
(u64)(x right-shift 32) OR (u64)(x left-shift 32) computed in u64. -/
def swap32 (x : Nat) : Nat := (x >>> 32) ||| ((x <<< 32) % U64MOD)

/-- Shift step of gk20a_replace_data: value shifted left for a nonnegative
shift and right for a negative one, in 64-bit arithmetic. -/
def cdeShiftedValue (shift : Int) (value : Nat) : Nat :=
  if 0 ≤ shift then (value <<< shift.toNat) % U64MOD else value >>> (-shift).toNat

/-- Read of the current target contents performed by gk20a_replace_data,
for each value type, from the 64-bit memory cell. -/
def cdeReadTarget : CdeParamType → Nat → Nat
  | CdeParamType.u32, t => t % U32MOD
  | CdeParamType.u64little, t => t
  | CdeParamType.u64big, t => swap32 t

/-- Write-back performed by gk20a_replace_data: a 32-bit store replaces only
the low 32 bits of the cell, a little endian 64-bit store replaces the whole
cell, and the big variant stores the word with swapped halves. -/
def cdeWriteTarget : CdeParamType → Nat → Nat → Nat
  | CdeParamType.u32, t, w => t / U32MOD * U32MOD + w % U32MOD
  | CdeParamType.u64little, _, w => w
  | CdeParamType.u64big, _, w => swap32 w

/-- Embedding of gk20a_replace_data on one 64-bit target cell: shift the
value, mask it, clear the mask bits in the current contents read through the
value type, OR in the new bits and write back through the same type. -/
def gk20a_replace_data (ty : CdeParamType) (shift : Int) (mask value tgt : Nat) : Nat :=
  let v := cdeShiftedValue shift value &&& mask
  let cur := cdeReadTarget ty tgt
  let cur2 := cur &&& ((U64MOD - 1) ^^^ mask)
  cdeWriteTarget ty tgt (cur2 ||| v)

/-- Raw-code wrapper of gk20a_replace_data: an unknown type code yields the
EINVAL error and leaves the target untouched. -/
def gk20a_replace_data_coded (code : Nat) (shift : Int) (mask value tgt : Nat) :
    Except Int Nat :=
  match decodeParamType code with
  | none => Except.error (-EINVAL)
  | some ty => Except.ok (gk20a_replace_data ty shift mask value tgt)


/-! ## Geometry of the gpu-to-cde conversion

The per-launch geometry computed at the top of gk20a_buffer_convert_gpu_to_cde
and its work-group divisibility check.
-/

/-- Modelled from the spec: compbits request flag meaning none, value 0. -/
def NVHOST_GPU_COMPBITS_NONE : Nat := 0

/-- Modelled from the spec: compbits flag for the base GPU representation;
the three representation flags are distinct bits of a mask. -/
def NVHOST_GPU_COMPBITS_GPU : Nat := 1

/-- Modelled from the spec: compbits flag for the horizontal CDE
representation. -/
def NVHOST_GPU_COMPBITS_CDEH : Nat := 2

/-- Modelled from the spec: compbits flag for the vertical CDE
representation. -/
def NVHOST_GPU_COMPBITS_CDEV : Nat := 4

/-- Linux roundup macro on naturals: round x up to a multiple of y. -/
def roundup (x y : Nat) : Nat := (x + y - 1) / y * y

/-- Geometry quantities computed by gk20a_buffer_convert_gpu_to_cde. -/
structure CdeGeometry where
  xtiles : Nat
  ytiles : Nat
  tilepitch : Nat
  ytilesaligned : Nat
  gridw : Nat
  gridh : Nat
  wgx : Nat
  wgy : Nat
  deriving DecidableEq, Repr

/-- Geometry computation of gk20a_buffer_convert_gpu_to_cde: transpose for
the vertical consumer, 8-pixel tiles, tile pitch aligned to the work-group
width times the compbits-per-byte packing, tile rows aligned to the
work-group height, and the dispatch grid derived from the aligned sizes. -/
def cdeGeometry (consumer width height : Nat) : CdeGeometry :=
  let transpose := consumer = NVHOST_GPU_COMPBITS_CDEV
  let tw := if transpose then height else width
  let th := if transpose then width else height
  let xtiles := (tw + 7) >>> 3
  let ytiles := (th + 7) >>> 3
  let wgx := 16
  let wgy := 8
  let compbitsPerByte := 4
  let xalign := compbitsPerByte * wgx
  let yalign := wgy
  let tilepitch := roundup xtiles xalign / compbitsPerByte
  let ytilesaligned := roundup ytiles yalign
  let gridw := roundup tilepitch wgx / wgx
  let gridh := roundup ytilesaligned wgy / wgy
  ⟨xtiles, ytiles, tilepitch, ytilesaligned, gridw, gridh, wgx, wgy⟩

/-- Divisibility check of gk20a_buffer_convert_gpu_to_cde: the conversion is
rejected with EINVAL when the aligned tile pitch is not a multiple of the
work-group width or the aligned tile-row count is not a multiple of the
work-group height. -/
def cdeGeometryCheck (consumer width height : Nat) : Except Int CdeGeometry :=
  if (cdeGeometry consumer width height).tilepitch
        % (cdeGeometry consumer width height).wgx ≠ 0 ∨
     (cdeGeometry consumer width height).ytilesaligned
        % (cdeGeometry consumer width height).wgy ≠ 0 then
    Except.error (-EINVAL)
  else
    Except.ok (cdeGeometry consumer width height)

/-! ## Context pool: initialise, reload, round-robin pointer

The pool state of struct gk20a_cde_app. The per-slot work done by
gk20a_cde_load (firmware fetch, channel open, virtual-address-space bind,
gpfifo allocation, backing-store map, image parse) is summarised by its
return code, supplied as an oracle list with one Int per slot; a slot is
recorded as loaded exactly when its load returned 0. The slot count is the
ARRAY_SIZE of the cde_ctx array in the missing header, so the model leaves
it arbitrary as the length of the slots list, per the spec wording of N
fixed slots.
-/

/-- Pool state of struct gk20a_cde_app: the initialised flag, the
round-robin context pointer, and per slot whether the slot currently holds
a successfully loaded context. -/
structure CdeApp where
  initialised : Bool
  ctxPtr : Nat
  slots : List Bool
  deriving DecidableEq, Repr

/-- Embedding of gk20a_init_cde_support: on an already initialised pool do
nothing; otherwise load every slot in order, stopping at the first failing
load and unwinding the already loaded slots, and only when every load
succeeds reset the pointer to 0 and mark the pool initialised. -/
def gk20a_init_cde_support (app : CdeApp) (loadResults : List Int) : Int × CdeApp :=
  if app.initialised then (0, app)
  else
    match loadResults.find? (fun r => r != 0) with
    | some e =>
        (e, { app with initialised := false,
                       slots := loadResults.map (fun _ => false) })
    | none =>
        (0, { app with initialised := true, ctxPtr := 0,
                       slots := loadResults.map (fun _ => true) })

/-- Embedding of gk20a_cde_reload: an uninitialised pool goes through
gk20a_init_cde_support, returning ENOSYS if that leaves it uninitialised;
otherwise every slot is torn down with gk20a_cde_remove and reloaded with
gk20a_cde_load in order, the one local err variable receiving each reload
result in turn, the round-robin pointer is reset to slot 0, and the err
value left by the last slot is returned. -/
def gk20a_cde_reload (app : CdeApp) (loadResults : List Int) : Int × CdeApp :=
  if app.initialised then
    (loadResults.getLastD 0,
     { app with ctxPtr := 0,
                slots := loadResults.map (fun r => decide (r = 0)) })
  else
    let r := gk20a_init_cde_support app loadResults
    if r.2.initialised then (0, r.2) else (-ENOSYS, r.2)

/-- Embedding of the context-selection step at the top of gk20a_cde_convert:
the current pointer picks the slot, then the pointer advances by one modulo
the number of slots. -/
def gk20a_cde_convert_advance (app : CdeApp) : Nat × CdeApp :=
  (app.ctxPtr, { app with ctxPtr := (app.ctxPtr + 1) % app.slots.length })

/-- Pool invariant named by the claim: whenever the pool reports itself
initialised, the round-robin pointer indexes a slot that has completed a
successful load. -/
def pointerValid (app : CdeApp) : Prop :=
  app.initialised = true → app.slots.getD app.ctxPtr false = true

instance (app : CdeApp) : Decidable (pointerValid app) := by
  unfold pointerValid
  infer_instance

/-- Every slot of the pool currently holds a successfully loaded context. -/
def allSlotsLoaded (app : CdeApp) : Prop :=
  ∀ b ∈ app.slots, b = true

instance (app : CdeApp) : Decidable (allSlotsLoaded app) := by
  unfold allSlotsLoaded
  infer_instance

/-- First nonzero per-slot load result, the value the claim says a pool
Reload returns; 0 when every slot succeeded. -/
def firstSlotError (rs : List Int) : Int :=
  match rs.find? (fun r => r != 0) with
  | some e => e
  | none => 0

/-! ## Firmware image parsing: contexts, buffers, elements

State of one struct gk20a_cde_ctx and the handlers gk20a_init_cde_buf,
gk20a_init_cde_replace, gk20a_init_cde_param, gk20a_init_cde_required_class
and gk20a_init_cde_command, dispatched over the image elements by
gk20a_init_cde_img. Kernel allocation and mapping services are oracles in a
CdeEnv record; the cleanup calls the driver performs are recorded in an
event list so that theorems can talk about what was freed. Buffer contents
are modelled as a function from 32-bit word index to word value, and the
64-bit cell at word index k is the little endian combination of words k and
k plus 1, matching the pointer arithmetic of the source, which advances a
u32 pointer by byte-offset divided by four.
-/

/-- Host pointer argument of a dma_free_coherent call: either the value of
the cpuva field, that is the pointer dma_alloc_coherent returned, or the
address of the cpuva field itself inside the memory descriptor. The source
of gk20a_init_cde_buf passes the latter on its cleanup path. -/
inductive HostPtr where
  | cpuvaValue (token : Nat)
  | cpuvaFieldAddr (token : Nat)
  deriving DecidableEq, Repr

/-- Cleanup calls performed by the buffer allocator and the image teardown. -/
inductive CdeEvent where
  | dmaFreeCoherent (p : HostPtr)
  | freeSgtable (sgt : Nat)
  | kfreeSgt (sgt : Nat)
  | gmmuUnmap (va : Nat)
  | freeObjCtx (objId : Nat)
  deriving DecidableEq, Repr

/-- Memory descriptor gk20a_cde_mem_desc: size, host pointer token, bus
address, scatter-gather-table token, device virtual address and contents as
32-bit words. -/
structure MemDesc where
  numBytes : Nat
  cpuva : Nat
  iova : Nat
  sgt : Nat
  gpuVa : Nat
  words : Nat → Nat

/-- Placeholder descriptor used for out-of-range list reads; the source
never reads past num_bufs on the paths modelled here. -/
def dummyMem : MemDesc := ⟨0, 0, 0, 0, 0, fun _ => 0⟩

/-- The 64-bit little endian cell of a buffer at 32-bit word index k. -/
def MemDesc.cell (m : MemDesc) (k : Nat) : Nat :=
  m.words k % U32MOD + (m.words (k + 1) % U32MOD) * U32MOD

/-- Store of a 64-bit cell at word index k, splitting the value into its
low and high 32-bit words. -/
def MemDesc.writeCell (m : MemDesc) (k c : Nat) : MemDesc :=
  { m with words := fun j =>
      if j = k then c % U32MOD
      else if j = k + 1 then c / U32MOD % U32MOD
      else m.words j }

/-- Buffer declaration element gk20a_cde_hdr_buf: a data byte offset into
the image (zero meaning no preload), a byte size, and the image content at
that offset viewed as 32-bit words (the raw byte layout lives in the
missing header). -/
structure HdrBuf where
  dataByteOffset : Nat
  numBytes : Nat
  content : Nat → Nat

/-- Static relocation element gk20a_cde_hdr_replace. -/
structure HdrReplace where
  targetBuf : Nat
  sourceBuf : Nat
  targetByteOffset : Nat
  sourceByteOffset : Nat
  type : Nat
  shift : Int
  mask : Nat

/-- Parameter descriptor gk20a_cde_hdr_param: logical id, target buffer and
byte offset, value type code, shift, mask and the constant data offset
added to the looked-up value (a u64 bit pattern, addition wraps). -/
structure HdrParam where
  id : Nat
  targetBuf : Nat
  targetByteOffset : Nat
  type : Nat
  shift : Int
  mask : Nat
  dataOffset : Nat

/-- Command element gk20a_cde_cmd_elem. -/
structure CmdElem where
  targetBuf : Nat
  targetByteOffset : Nat
  numBytes : Nat
  deriving DecidableEq, Repr

/-- Hardware ring entry nvhost_gpfifo as built by gk20a_init_cde_command. -/
structure GpfifoEntry where
  entry0 : Nat
  entry1 : Nat
  deriving DecidableEq, Repr

/-- Low 32 bits of a 64-bit word, the u64_lo32 helper. -/
def lo32 (x : Nat) : Nat := x % U32MOD

/-- High 32 bits of a 64-bit word, the u64_hi32 helper. -/
def hi32 (x : Nat) : Nat := x / U32MOD % U32MOD

/-- Modelled from the spec: the gpfifo entry1 length field encoder
pbdma_gp_entry1_length_f from the missing hardware header; the exact bit
position is hardware detail, the model places the length above bit 20. -/
def pbdma_gp_entry1_length_f (v : Nat) : Nat := v % 2 ^ 21 * 2 ^ 21

/-- Modelled from the spec: the hard cap MAX_CDE_BUFS on buffers per
context (value from the missing header; only its role as a cap is used). -/
def MAX_CDE_BUFS : Nat := 10

/-- Modelled from the spec: the hard cap MAX_CDE_PARAMS on parameter
descriptors per context. -/
def MAX_CDE_PARAMS : Nat := 64

/-- Modelled from the spec: the hard cap MAX_CDE_OBJ_IDS on allocated
hardware object contexts per context. -/
def MAX_CDE_OBJ_IDS : Nat := 4

/-- Modelled from the spec: the count MAX_CDE_USER_PARAMS of caller
supplied parameter slots. -/
def MAX_CDE_USER_PARAMS : Nat := 32

/-- Modelled from the spec: NUM_RESERVED_PARAMS, the first user parameter
id; consistent with the patch id enumeration in the source, which starts
user-visible ids at 1024. -/
def NUM_RESERVED_PARAMS : Nat := 1024

/-- Modelled from the spec: command list operation tag TYPE_BUF_COMMAND_INIT
(value from the missing header; only distinctness is used). -/
def TYPE_BUF_COMMAND_INIT : Nat := 1

/-- Modelled from the spec: command list operation tag
TYPE_BUF_COMMAND_CONVERT. -/
def TYPE_BUF_COMMAND_CONVERT : Nat := 2

/-- Context state of struct gk20a_cde_ctx. The C struct holds fixed arrays
with separate element counters; the model keeps the counters and lists whose
entries past the counter are never read (teardown clears both together). -/
structure CdeCtx where
  numBufs : Nat
  bufs : List MemDesc
  numObjIds : Nat
  objIds : List Nat
  numParams : Nat
  params : List HdrParam
  initCmd : Option (List GpfifoEntry)
  initCmdNumEntries : Nat
  convertCmd : Option (List GpfifoEntry)
  convertCmdNumEntries : Nat
  srcVaddr : Nat
  srcParamOffset : Nat
  srcParamLines : Nat
  destVaddr : Nat
  destSize : Nat
  backingStoreVaddr : Nat
  userParamValues : Nat → Nat

/-- Context with nothing loaded, the state gk20a_cde_load starts from. -/
def emptyCdeCtx : CdeCtx :=
  ⟨0, [], 0, [], 0, [], none, 0, none, 0, 0, 0, 0, 0, 0, 0, fun _ => 0⟩

/-- Oracle outcomes of the kernel services used during image parsing:
device-coherent allocation (token and bus address, or failure),
scatter-gather-table construction, GPU MMU mapping (zero meaning failure,
as in the source), hardware object context allocation, and the gpfifo
array allocation. -/
structure CdeEnv where
  dmaAlloc : Nat → Option (Nat × Nat)
  getSgtable : Nat → Option Nat
  gmmuMap : Nat → Nat
  allocObjCtx : Nat → Except Int Nat
  kzallocOk : Bool

/-- Embedding of gk20a_init_cde_buf. Two details are carried over exactly
from the source: the table-full check compares num_bufs with MAX_CDE_BUFS
using strict greater-than, and the cleanup label reached when the
scatter-gather construction or the mapping fails hands dma_free_coherent
the address of the cpuva field instead of the cpuva value. -/
def gk20a_init_cde_buf (env : CdeEnv) (imgSize : Nat) (ctx : CdeCtx)
    (b : HdrBuf) : Int × CdeCtx × List CdeEvent :=
  if b.dataByteOffset ≠ 0 ∧ b.dataByteOffset + b.numBytes > imgSize then
    (-EINVAL, ctx, [])
  else if ctx.numBufs > MAX_CDE_BUFS then
    (-ENOMEM, ctx, [])
  else
    match env.dmaAlloc b.numBytes with
    | none => (-ENOMEM, ctx, [])
    | some (cpuva, iova) =>
      match env.getSgtable cpuva with
      | none =>
          (-ENOMEM, ctx,
           [CdeEvent.dmaFreeCoherent (HostPtr.cpuvaFieldAddr cpuva)])
      | some sgt =>
          let gpuVa := env.gmmuMap sgt
          if gpuVa = 0 then
            (-ENOMEM, ctx,
             [CdeEvent.freeSgtable sgt, CdeEvent.kfreeSgt sgt,
              CdeEvent.dmaFreeCoherent (HostPtr.cpuvaFieldAddr cpuva)])
          else
            let words := if b.dataByteOffset ≠ 0 then b.content else fun _ => 0
            (0, { ctx with
                    bufs := ctx.bufs ++ [⟨b.numBytes, cpuva, iova, sgt, gpuVa, words⟩],
                    numBufs := ctx.numBufs + 1 }, [])

/-- Application of gk20a_replace_data to the cell at a byte offset inside a
context buffer; the unknown-type error leaves the context untouched. -/
def ctxReplaceData (ctx : CdeCtx) (idx off code : Nat) (shift : Int)
    (mask value : Nat) : Except Int CdeCtx :=
  match decodeParamType code with
  | none => Except.error (-EINVAL)
  | some ty =>
      let k := off / 4
      let m := ctx.bufs.getD idx dummyMem
      let c2 := gk20a_replace_data ty shift mask value (m.cell k)
      Except.ok { ctx with bufs := ctx.bufs.set idx (m.writeCell k c2) }

/-- Embedding of gk20a_init_cde_replace: validate the buffer indices and the
three-byte bounds margin, then patch the source buffer device address plus
source offset into the target buffer. -/
def gk20a_init_cde_replace (ctx : CdeCtx) (r : HdrReplace) : Int × CdeCtx :=
  if r.targetBuf ≥ ctx.numBufs ∨ r.sourceBuf ≥ ctx.numBufs then (-EINVAL, ctx)
  else
    let sourceMem := ctx.bufs.getD r.sourceBuf dummyMem
    let targetMem := ctx.bufs.getD r.targetBuf dummyMem
    if sourceMem.numBytes < r.sourceByteOffset + 3 ∨
       targetMem.numBytes < r.targetByteOffset + 3 then (-EINVAL, ctx)
    else
      let vaddr := (sourceMem.gpuVa + r.sourceByteOffset) % U64MOD
      match ctxReplaceData ctx r.targetBuf r.targetByteOffset r.type r.shift
          r.mask vaddr with
      | Except.error e => (e, ctx)
      | Except.ok ctx2 => (0, ctx2)

/-- Embedding of gk20a_init_cde_param: validate target buffer, bounds
margin, parameter table space and id range, then store the descriptor. -/
def gk20a_init_cde_param (ctx : CdeCtx) (p : HdrParam) : Int × CdeCtx :=
  if p.targetBuf ≥ ctx.numBufs then (-EINVAL, ctx)
  else
    let targetMem := ctx.bufs.getD p.targetBuf dummyMem
    if targetMem.numBytes < p.targetByteOffset + 3 then (-EINVAL, ctx)
    else if ctx.numParams ≥ MAX_CDE_PARAMS then (-ENOMEM, ctx)
    else if p.id ≥ NUM_RESERVED_PARAMS + MAX_CDE_USER_PARAMS then (-EINVAL, ctx)
    else
      (0, { ctx with params := ctx.params ++ [p],
                     numParams := ctx.numParams + 1 })

/-- Embedding of gk20a_init_cde_required_class: check the object id table,
then allocate a hardware object context through the oracle. -/
def gk20a_init_cde_required_class (env : CdeEnv) (ctx : CdeCtx)
    (requiredClass : Nat) : Int × CdeCtx :=
  if ctx.numObjIds ≥ MAX_CDE_OBJ_IDS then (-ENOMEM, ctx)
  else
    match env.allocObjCtx requiredClass with
    | Except.error e => (e, ctx)
    | Except.ok objId =>
        (0, { ctx with objIds := ctx.objIds ++ [objId],
                       numObjIds := ctx.numObjIds + 1 })

/-- Validation and entry-building loop of gk20a_init_cde_command; on a
failing element it returns the error together with the partially filled,
zero-initialised array, exactly the state the C array is left in. -/
def cdeCommandLoop (ctx : CdeCtx) (total : Nat) :
    List CmdElem → List GpfifoEntry → Int × List GpfifoEntry
  | [], acc => (0, acc)
  | e :: rest, acc =>
      if e.targetBuf ≥ ctx.numBufs then
        (-EINVAL, acc ++ List.replicate (total - acc.length) ⟨0, 0⟩)
      else
        let tm := ctx.bufs.getD e.targetBuf dummyMem
        if tm.numBytes < e.targetByteOffset + e.numBytes then
          (-EINVAL, acc ++ List.replicate (total - acc.length) ⟨0, 0⟩)
        else
          cdeCommandLoop ctx total rest
            (acc ++ [⟨lo32 ((tm.gpuVa + e.targetByteOffset) % U64MOD),
                      hi32 ((tm.gpuVa + e.targetByteOffset) % U64MOD) |||
                        pbdma_gp_entry1_length_f (e.numBytes / 4)⟩])

/-- Embedding of gk20a_init_cde_command: dispatch on the operation tag,
allocate the entry array, build the entries, and only on full success store
the entry count; on a partial failure the pointer is set but the count is
left unchanged, as in the source. -/
def gk20a_init_cde_command (env : CdeEnv) (ctx : CdeCtx) (op : Nat)
    (cmdElems : List CmdElem) : Int × CdeCtx :=
  if op ≠ TYPE_BUF_COMMAND_INIT ∧ op ≠ TYPE_BUF_COMMAND_CONVERT then
    (-EINVAL, ctx)
  else if ¬ env.kzallocOk then (-ENOMEM, ctx)
  else
    let r := cdeCommandLoop ctx cmdElems.length cmdElems []
    if op = TYPE_BUF_COMMAND_INIT then
      if r.1 = 0 then
        (0, { ctx with initCmd := some r.2,
                       initCmdNumEntries := cmdElems.length })
      else (r.1, { ctx with initCmd := some r.2 })
    else
      if r.1 = 0 then
        (0, { ctx with convertCmd := some r.2,
                       convertCmdNumEntries := cmdElems.length })
      else (r.1, { ctx with convertCmd := some r.2 })

/-- Typed firmware image element; the raw u32 discriminants live in the
missing header, so the tag is modelled as an inductive type, with unknown
standing for any unrecognised discriminant. The out-of-line command element
array referenced by a command element through a byte offset is carried
inline. -/
inductive CdeElem where
  | buf (b : HdrBuf)
  | replace (r : HdrReplace)
  | param (p : HdrParam)
  | requiredClass (c : Nat)
  | command (op : Nat) (elems : List CmdElem)
  | unknown

/-- Dispatch of one image element, the switch inside gk20a_init_cde_img. -/
def processElem (env : CdeEnv) (imgSize : Nat) (ctx : CdeCtx) :
    CdeElem → Int × CdeCtx × List CdeEvent
  | CdeElem.buf b => gk20a_init_cde_buf env imgSize ctx b
  | CdeElem.replace r =>
      let r2 := gk20a_init_cde_replace ctx r
      (r2.1, r2.2, [])
  | CdeElem.param p =>
      let r2 := gk20a_init_cde_param ctx p
      (r2.1, r2.2, [])
  | CdeElem.requiredClass c =>
      let r2 := gk20a_init_cde_required_class env ctx c
      (r2.1, r2.2, [])
  | CdeElem.command op elems =>
      let r2 := gk20a_init_cde_command env ctx op elems
      (r2.1, r2.2, [])
  | CdeElem.unknown => (-EINVAL, ctx, [])

/-- Element loop of gk20a_init_cde_img: process elements in file order and
stop at the first failure. -/
def processElems (env : CdeEnv) (imgSize : Nat) :
    List CdeElem → CdeCtx → Int × CdeCtx × List CdeEvent
  | [], ctx => (0, ctx, [])
  | e :: rest, ctx =>
      let r := processElem env imgSize ctx e
      if r.1 = 0 then
        let r2 := processElems env imgSize rest r.2.1
        (r2.1, r2.2.1, r.2.2 ++ r2.2.2)
      else r

/-- Embedding of gk20a_deinit_cde_img: unmap, free the scatter-gather table
and free the device memory of every buffer (this teardown path passes the
cpuva value, matching the source), free every hardware object context, free
both command arrays and zero all counters. -/
def gk20a_deinit_cde_img (ctx : CdeCtx) : CdeCtx × List CdeEvent :=
  ({ ctx with numBufs := 0, bufs := [], numObjIds := 0, objIds := [],
              numParams := 0, params := [],
              initCmd := none, convertCmd := none,
              initCmdNumEntries := 0, convertCmdNumEntries := 0 },
   (ctx.bufs.map fun m =>
      [CdeEvent.gmmuUnmap m.gpuVa, CdeEvent.freeSgtable m.sgt,
       CdeEvent.dmaFreeCoherent (HostPtr.cpuvaValue m.cpuva)]).flatten ++
   ctx.objIds.map CdeEvent.freeObjCtx)

/-- Modelled from the spec: byte size of one fixed-size header element,
struct gk20a_cde_hdr_elem, whose layout lives in the missing header. -/
def CDE_HDR_ELEM_SIZE : Nat := 64

/-- Firmware image: byte size, header version and the decoded element
sequence. -/
structure FwImage where
  size : Nat
  version : Nat
  elems : List CdeElem

/-- Embedding of gk20a_init_cde_img: check the 8-byte header, check that
the declared element array fits the image, run the element loop, then
require both command lists to be present with nonzero entry counts; any
failure tears the partially built context down. -/
def gk20a_init_cde_img (env : CdeEnv) (img : FwImage) (ctx : CdeCtx) :
    Int × CdeCtx × List CdeEvent :=
  if img.size < 8 then (-EINVAL, ctx, [])
  else if img.size < 8 + img.elems.length * CDE_HDR_ELEM_SIZE then
    (-EINVAL, ctx, [])
  else
    let r := processElems env img.size img.elems ctx
    if r.1 ≠ 0 then
      (r.1, (gk20a_deinit_cde_img r.2.1).1,
       r.2.2 ++ (gk20a_deinit_cde_img r.2.1).2)
    else if r.2.1.initCmd = none ∨ r.2.1.initCmdNumEntries = 0 then
      (-EINVAL, (gk20a_deinit_cde_img r.2.1).1,
       r.2.2 ++ (gk20a_deinit_cde_img r.2.1).2)
    else if r.2.1.convertCmd = none ∨ r.2.1.convertCmdNumEntries = 0 then
      (-EINVAL, (gk20a_deinit_cde_img r.2.1).1,
       r.2.2 ++ (gk20a_deinit_cde_img r.2.1).2)
    else (0, r.2.1, r.2.2)

/-! ## Per-conversion parameter patching: gk20a_cde_patch_params -/

/-- Modelled from the spec: reserved parameter id TYPE_PARAM_COMPTAGS_PER_CACHELINE
(numeric values of the reserved ids live in the missing header; all lie
below NUM_RESERVED_PARAMS and only distinctness is used). -/
def TYPE_PARAM_COMPTAGS_PER_CACHELINE : Nat := 1

/-- Modelled from the spec: reserved parameter id TYPE_PARAM_GPU_CONFIGURATION. -/
def TYPE_PARAM_GPU_CONFIGURATION : Nat := 2

/-- Modelled from the spec: reserved parameter id TYPE_PARAM_FIRSTPAGEOFFSET. -/
def TYPE_PARAM_FIRSTPAGEOFFSET : Nat := 3

/-- Modelled from the spec: reserved parameter id TYPE_PARAM_NUMPAGES. -/
def TYPE_PARAM_NUMPAGES : Nat := 4

/-- Modelled from the spec: reserved parameter id TYPE_PARAM_BACKINGSTORE. -/
def TYPE_PARAM_BACKINGSTORE : Nat := 5

/-- Modelled from the spec: reserved parameter id TYPE_PARAM_DESTINATION. -/
def TYPE_PARAM_DESTINATION : Nat := 6

/-- Modelled from the spec: reserved parameter id TYPE_PARAM_DESTINATION_SIZE. -/
def TYPE_PARAM_DESTINATION_SIZE : Nat := 7

/-- Modelled from the spec: reserved parameter id TYPE_PARAM_BACKINGSTORE_SIZE. -/
def TYPE_PARAM_BACKINGSTORE_SIZE : Nat := 8

/-- Modelled from the spec: reserved parameter id TYPE_PARAM_SOURCE_SMMU_ADDR. -/
def TYPE_PARAM_SOURCE_SMMU_ADDR : Nat := 9

/-- Modelled from the spec: reserved parameter id TYPE_PARAM_BACKINGSTORE_BASE_HW. -/
def TYPE_PARAM_BACKINGSTORE_BASE_HW : Nat := 10

/-- Hardware and device state read by gk20a_cde_patch_params: the gr and
ltc configuration values and the gpuva-to-iova translation service. -/
structure GpuEnv where
  comptagsPerCacheline : Nat
  ltcCount : Nat
  slicesPerLtc : Nat
  cachelineSize : Nat
  compbitStoreSize : Nat
  compbitStoreBaseHw : Nat
  gpuvaToIova : Nat → Nat

/-- Value lookup of one parameter in gk20a_cde_patch_params; none encodes
the continue branch that skips an out-of-range user id. In the source the
TYPE_PARAM_SOURCE_SMMU_ADDR case sets the local err variable to EINVAL when
the translation returns zero, but that assignment is dead: control falls
through, err is overwritten by the next gk20a_replace_data call, and the
zero value is patched like any other, which this model therefore does. -/
def cdeParamValue (g : GpuEnv) (ctx : CdeCtx) (p : HdrParam) : Option Nat :=
  if p.id = TYPE_PARAM_COMPTAGS_PER_CACHELINE then some g.comptagsPerCacheline
  else if p.id = TYPE_PARAM_GPU_CONFIGURATION then
    some (g.ltcCount * g.slicesPerLtc * g.cachelineSize)
  else if p.id = TYPE_PARAM_FIRSTPAGEOFFSET then some ctx.srcParamOffset
  else if p.id = TYPE_PARAM_NUMPAGES then some ctx.srcParamLines
  else if p.id = TYPE_PARAM_BACKINGSTORE then some ctx.backingStoreVaddr
  else if p.id = TYPE_PARAM_DESTINATION then some ctx.destVaddr
  else if p.id = TYPE_PARAM_DESTINATION_SIZE then some ctx.destSize
  else if p.id = TYPE_PARAM_BACKINGSTORE_SIZE then some g.compbitStoreSize
  else if p.id = TYPE_PARAM_SOURCE_SMMU_ADDR then
    some (g.gpuvaToIova ctx.srcVaddr)
  else if p.id = TYPE_PARAM_BACKINGSTORE_BASE_HW then some g.compbitStoreBaseHw
  else if p.id < NUM_RESERVED_PARAMS ∨
          p.id ≥ NUM_RESERVED_PARAMS + MAX_CDE_USER_PARAMS then none
  else some (ctx.userParamValues (p.id - NUM_RESERVED_PARAMS))

/-- Loop of gk20a_cde_patch_params over the declared parameter
descriptors: look the value up, add the constant data offset in 64-bit
arithmetic, patch it into the target buffer, and stop only when
gk20a_replace_data itself reports an error. -/
def cdePatchParamsLoop (g : GpuEnv) : CdeCtx → List HdrParam → Int × CdeCtx
  | ctx, [] => (0, ctx)
  | ctx, p :: rest =>
      match cdeParamValue g ctx p with
      | none => cdePatchParamsLoop g ctx rest
      | some nd =>
          match ctxReplaceData ctx p.targetBuf p.targetByteOffset p.type
              p.shift p.mask ((nd + p.dataOffset) % U64MOD) with
          | Except.error e => (e, ctx)
          | Except.ok ctx2 => cdePatchParamsLoop g ctx2 rest

/-- Embedding of gk20a_cde_patch_params. -/
def gk20a_cde_patch_params (g : GpuEnv) (ctx : CdeCtx) : Int × CdeCtx :=
  cdePatchParamsLoop g ctx ctx.params

/-! ## Convert entry point: control flow, mappings and the pool lock

The hot path gk20a_cde_convert is embedded as a trace generator: the
outcomes of the services it calls are oracles in a ConvertEnv record and
the lock, dma-buf reference and map or unmap operations it performs are
recorded in order. The in-repository functions it calls (gk20a_cde_reload,
gk20a_cde_patch_params, gk20a_cde_execute_buffer) are abstracted by their
return codes here; they are modelled in full above and the claims about
them are settled separately.
-/

/-- Oracle outcomes for one call of gk20a_cde_convert. -/
structure ConvertEnv where
  initialised : Bool
  allocDrvdataDst : Int
  mapDst : Nat
  allocDrvdataSrc : Int
  mapSrc : Nat
  hasTimedout : Bool
  reloadErr : Int
  channelFinishErr : Int
  userParamsErr : Int
  patchErr : Int
  execInitErr : Int
  execConvertErr : Int

/-- Lock, reference and mapping operations performed by gk20a_cde_convert,
in program order. -/
inductive CvtEvent where
  | lock
  | unlock
  | getDmaBufDst
  | getDmaBufSrc
  | putDmaBufDst
  | putDmaBufSrc
  | vmMapDst (va : Nat)
  | vmMapSrc (va : Nat)
  | vmUnmapDst (va : Nat)
  | vmUnmapSrc (va : Nat)
  deriving DecidableEq, Repr

/-- The exit_unlock label of gk20a_cde_convert: unmap whichever of the two
buffers has a nonzero virtual address, then release the pool lock. -/
def convertExitUnlock (dstVaddr srcVaddr : Nat) (err : Int)
    (tr : List CvtEvent) : Int × List CvtEvent :=
  (err, tr ++ (if dstVaddr ≠ 0 then [CvtEvent.vmUnmapDst dstVaddr] else []) ++
        (if srcVaddr ≠ 0 then [CvtEvent.vmUnmapSrc srcVaddr] else []) ++
        [CvtEvent.unlock])

/-- Tail of gk20a_cde_convert after the buffers are mapped and any timeout
reload has happened: wait for channel idle, reset the channel, read the
caller parameters, patch, submit the init buffer and then the convert
buffer; every outcome finishes through the exit_unlock label. -/
def convertBody (e : ConvertEnv) (dstVaddr srcVaddr : Nat)
    (tr : List CvtEvent) : Int × List CvtEvent :=
  if e.channelFinishErr ≠ 0 then
    convertExitUnlock dstVaddr srcVaddr e.channelFinishErr tr
  else if e.userParamsErr ≠ 0 then
    convertExitUnlock dstVaddr srcVaddr e.userParamsErr tr
  else if e.patchErr ≠ 0 then
    convertExitUnlock dstVaddr srcVaddr e.patchErr tr
  else if e.execInitErr ≠ 0 then
    convertExitUnlock dstVaddr srcVaddr e.execInitErr tr
  else
    convertExitUnlock dstVaddr srcVaddr e.execConvertErr tr

/-- Embedding of the control flow of gk20a_cde_convert: take the pool lock,
map the destination and the source dma-bufs (dropping the just-taken
reference when a map fails), and if the selected channel has previously
timed out, release the lock and run the whole-pool reload - on reload
failure the source returns the error right there, before the exit_unlock
label, so no unmap of the two mapped buffers and no further lock operation
happens on that path. -/
def gk20a_cde_convert (e : ConvertEnv) : Int × List CvtEvent :=
  if ¬ e.initialised then (-ENOSYS, [])
  else
    let tr0 : List CvtEvent := [CvtEvent.lock]
    if e.allocDrvdataDst ≠ 0 then convertExitUnlock 0 0 e.allocDrvdataDst tr0
    else
      let tr1 := tr0 ++ [CvtEvent.getDmaBufDst, CvtEvent.vmMapDst e.mapDst]
      if e.mapDst = 0 then
        convertExitUnlock 0 0 (-EINVAL) (tr1 ++ [CvtEvent.putDmaBufDst])
      else if e.allocDrvdataSrc ≠ 0 then
        convertExitUnlock e.mapDst 0 e.allocDrvdataSrc tr1
      else
        let tr2 := tr1 ++ [CvtEvent.getDmaBufSrc, CvtEvent.vmMapSrc e.mapSrc]
        if e.mapSrc = 0 then
          convertExitUnlock e.mapDst 0 (-EINVAL) (tr2 ++ [CvtEvent.putDmaBufSrc])
        else if e.hasTimedout then
          let tr3 := tr2 ++ [CvtEvent.unlock]
          if e.reloadErr ≠ 0 then (e.reloadErr, tr3)
          else convertBody e e.mapDst e.mapSrc (tr3 ++ [CvtEvent.lock])
        else convertBody e e.mapDst e.mapSrc tr2

/-! ## Compression-state tracker: gk20a_prepare_compressible_read -/

/-- Per-surface compression state gk20a_buffer_state: the valid-bits mask
and the tracked completion fence (a refcounted handle, by token). -/
structure BufferState where
  validCompbits : Nat
  fence : Option Nat
  deriving DecidableEq, Repr

/-- Oracle outcomes of the services called by
gk20a_prepare_compressible_read: pool initialisation state and reload
result, dma-buf lookup, state lookup, and the two possible conversions,
each yielding a new fence on success. -/
structure PrepEnv where
  initialised : Bool
  reloadErr : Int
  dmabufOk : Bool
  getStateErr : Int
  convertCdeh : Except Int Nat
  convertCdev : Except Int Nat

/-- Embedding of gk20a_prepare_compressible_read. The result is the C
return value, the updated surface state, the written fence output and the
written valid-bits output (none when the source leaves the out parameter
unwritten). On the path where the surface has nonzero valid bits and the
request is none, the source sets its local err to EINVAL and drops the
fence, but every path reaching the out label executes the final return 0,
so the error is never propagated; the model returns what the source
returns. -/
def gk20a_prepare_compressible_read (e : PrepEnv) (st : BufferState)
    (request : Nat) : Int × BufferState × Option Nat × Option Nat :=
  if ¬ e.initialised ∧ e.reloadErr ≠ 0 then (e.reloadErr, st, none, none)
  else if ¬ e.dmabufOk then (-EINVAL, st, none, none)
  else if e.getStateErr ≠ 0 then (e.getStateErr, st, none, none)
  else
    let missing := (st.validCompbits ^^^ request) &&& request
    if st.validCompbits ≠ 0 ∧ request = NVHOST_GPU_COMPBITS_NONE then
      (0, { st with fence := none }, none, none)
    else if missing ≠ 0 then
      let doCdeh := st.validCompbits &&& NVHOST_GPU_COMPBITS_GPU ≠ 0 ∧
                    missing &&& NVHOST_GPU_COMPBITS_CDEH ≠ 0
      if doCdeh then
        match e.convertCdeh with
        | Except.error _ => (0, st, none, none)
        | Except.ok f =>
            let st1 : BufferState :=
              ⟨st.validCompbits ||| NVHOST_GPU_COMPBITS_CDEH, some f⟩
            let doCdev := st1.validCompbits &&& NVHOST_GPU_COMPBITS_GPU ≠ 0 ∧
                          missing &&& NVHOST_GPU_COMPBITS_CDEV ≠ 0
            if doCdev then
              match e.convertCdev with
              | Except.error _ => (0, st1, none, none)
              | Except.ok f2 =>
                  let st2 : BufferState :=
                    ⟨st1.validCompbits ||| NVHOST_GPU_COMPBITS_CDEV, some f2⟩
                  (0, st2, st2.fence, some st2.validCompbits)
            else (0, st1, st1.fence, some st1.validCompbits)
      else
        let doCdev := st.validCompbits &&& NVHOST_GPU_COMPBITS_GPU ≠ 0 ∧
                      missing &&& NVHOST_GPU_COMPBITS_CDEV ≠ 0
        if doCdev then
          match e.convertCdev with
          | Except.error _ => (0, st, none, none)
          | Except.ok f2 =>
              let st2 : BufferState :=
                ⟨st.validCompbits ||| NVHOST_GPU_COMPBITS_CDEV, some f2⟩
              (0, st2, st2.fence, some st2.validCompbits)
        else
          (0, st, if st.fence.isSome then st.fence else none,
           some st.validCompbits)
    else
      (0, st, if st.fence.isSome then st.fence else none,
       some st.validCompbits)

/-! ## Concrete fixtures used by the claim theorems -/

/-- All-succeeding kernel service oracle used by concrete evaluations. -/
def envAllOk : CdeEnv :=
  ⟨fun _ => some (1, 100), fun _ => some 2, fun _ => 4096,
   fun c => Except.ok c, true⟩

/-- Firmware image with one buffer declaration followed by an init and a
convert command list of one entry each. -/
def imgBothCmds : FwImage :=
  ⟨1000, 1,
   [CdeElem.buf ⟨0, 16, fun _ => 0⟩,
    CdeElem.command TYPE_BUF_COMMAND_INIT [⟨0, 0, 4⟩],
    CdeElem.command TYPE_BUF_COMMAND_CONVERT [⟨0, 0, 4⟩]]⟩

/-- Context whose buffer table is exactly full: num_bufs at MAX_CDE_BUFS. -/
def ctxTableFull : CdeCtx :=
  { emptyCdeCtx with numBufs := MAX_CDE_BUFS,
                     bufs := List.replicate MAX_CDE_BUFS dummyMem }

/-- Oracle on which device-coherent allocation yields token 7 and the
scatter-gather-table construction then fails. -/
def envSgFail : CdeEnv :=
  ⟨fun _ => some (7, 100), fun _ => none, fun _ => 0,
   fun _ => Except.error (-EINVAL), true⟩

/-- Device environment whose gpuva-to-iova translation returns 0. -/
def gpuEnvIovaZero : GpuEnv := ⟨0, 0, 0, 0, 0, 0, fun _ => 0⟩

/-- Source-SMMU-address parameter: full 64-bit mask, no shift, no constant
offset, 64-bit little endian type, patched at offset 0 of buffer 0. -/
def paramSmmu : HdrParam :=
  ⟨TYPE_PARAM_SOURCE_SMMU_ADDR, 0, 0, TYPE_PARAM_TYPE_U64_LITTLE, 0,
   U64MOD - 1, 0⟩

/-- Context holding one buffer whose words are all ones and the single
source-SMMU-address parameter above. -/
def ctxSmmu : CdeCtx :=
  { emptyCdeCtx with
      numBufs := 1,
      bufs := [⟨16, 1, 100, 2, 4096, fun _ => U32MOD - 1⟩],
      numParams := 1,
      params := [paramSmmu],
      srcVaddr := 12345 }

/-- Convert oracle: both dma-buf maps succeed, the selected channel has
previously timed out and the whole-pool reload fails with ENOMEM. -/
def envTimeoutReloadFail : ConvertEnv :=
  ⟨true, 0, 4096, 0, 8192, true, -ENOMEM, 0, 0, 0, 0, 0⟩

/-- Prepare-read oracle: pool initialised and all lookups succeed. -/
def envPrepOk : PrepEnv := ⟨true, 0, true, 0, Except.ok 5, Except.ok 6⟩

/-! ## Helper lemmas and claim theorems -/

/-! ### Bit-level helper lemmas -/

theorem testBit_ge_64 {x : Nat} (hx : x < 2 ^ 64) {j : Nat} (hj : 64 ≤ j) :
    x.testBit j = false :=
  Nat.testBit_lt_two_pow (lt_of_lt_of_le hx (Nat.pow_le_pow_right (by norm_num) hj))

theorem testBit_ge_32 {x : Nat} (hx : x < 2 ^ 32) {j : Nat} (hj : 32 ≤ j) :
    x.testBit j = false :=
  Nat.testBit_lt_two_pow (lt_of_lt_of_le hx (Nat.pow_le_pow_right (by norm_num) hj))

theorem swap32_lt {x : Nat} (hx : x < U64MOD) : swap32 x < U64MOD := by
  unfold swap32 U64MOD at *
  refine Nat.or_lt_two_pow ?_ (Nat.mod_lt _ (by positivity))
  rw [Nat.shiftRight_eq_div_pow]
  exact lt_of_le_of_lt (Nat.div_le_self _ _) hx

theorem swap32_swap32 {x : Nat} (hx : x < U64MOD) : swap32 (swap32 x) = x := by
  unfold U64MOD at hx
  apply Nat.eq_of_testBit_eq
  intro i
  simp only [swap32, U64MOD, Nat.testBit_or, Nat.testBit_mod_two_pow,
    Nat.testBit_shiftLeft, Nat.testBit_shiftRight]
  rcases Nat.lt_or_ge i 32 with h1 | h1
  · have e1 : x.testBit (32 + (32 + i)) = false := testBit_ge_64 hx (by omega)
    have e2 : ¬ (32 ≤ i) := by omega
    have e6 : 32 + i - 32 = i := by omega
    have h64 : i < 64 := by omega
    have h3264 : 32 + i < 64 := by omega
    simp [e1, e2, e6, h64, h3264]
  · rcases Nat.lt_or_ge i 64 with h2 | h2
    · have e1 : x.testBit (32 + (32 + i)) = false := testBit_ge_64 hx (by omega)
      have e2 : ¬ (32 + i < 64) := by omega
      have e3 : 32 + (i - 32) = i := by omega
      have e4 : ¬ (32 ≤ i - 32) := by omega
      have e5 : i - 32 < 64 := by omega
      simp [e1, e2, e3, e4, e5, h1, h2]
    · have e1 : x.testBit (32 + (32 + i)) = false := testBit_ge_64 hx (by omega)
      have e2 : ¬ (i < 64) := by omega
      have e2b : ¬ (32 + i < 64) := by omega
      have e5 : x.testBit i = false := testBit_ge_64 hx h2
      simp [e1, e2, e2b, e5]

theorem replace_core (mask sv c : Nat) (hm : mask < U64MOD) :
    ((c &&& ((U64MOD - 1) ^^^ mask)) ||| (sv &&& mask)) &&& mask = sv &&& mask ∧
    ((c &&& ((U64MOD - 1) ^^^ mask)) ||| (sv &&& mask)) &&& ((U64MOD - 1) ^^^ mask)
      = c &&& ((U64MOD - 1) ^^^ mask) := by
  unfold U64MOD at *
  constructor <;>
  · apply Nat.eq_of_testBit_eq
    intro i
    rcases Nat.lt_or_ge i 64 with h | h
    · have hd : (2 ^ 64 - 1).testBit i = true := by
        rw [Nat.testBit_two_pow_sub_one]
        simpa using h
      simp only [Nat.testBit_and, Nat.testBit_or, Nat.testBit_xor, hd]
      cases mask.testBit i <;> cases c.testBit i <;> cases sv.testBit i <;> rfl
    · have e : mask.testBit i = false := testBit_ge_64 hm h
      have e2 : (2 ^ 64 - 1).testBit i = false := testBit_ge_64 (by norm_num) h
      simp [Nat.testBit_and, Nat.testBit_or, Nat.testBit_xor, e, e2]

theorem mod_two_pow_and_comm (a c n : Nat) : (a % 2 ^ n) &&& c = (a &&& c) % 2 ^ n := by
  apply Nat.eq_of_testBit_eq
  intro i
  by_cases h : i < n <;>
    simp [Nat.testBit_and, Nat.testBit_mod_two_pow, h, Bool.and_assoc, Bool.and_comm,
      Bool.and_left_comm]

theorem compl64_lt {mask : Nat} (hm : mask < U64MOD) : (U64MOD - 1) ^^^ mask < U64MOD := by
  unfold U64MOD at *
  exact Nat.xor_lt_two_pow (by norm_num) hm

/-- C8 (amended): round trip of the binary patcher. For every value type,
signed shift, mask and value, after gk20a_replace_data writes the
shifted-then-masked value, reading the target back through the same
endianness and applying the same mask recovers exactly the masked bits of
the shifted value, and all target bits outside the mask, as seen through
the same endianness, are unchanged; for the 32-bit type this requires that
the mask fits in 32 bits (the unamended claim fails there, see the
counterexample). -/
theorem C8_replace_data_round_trip (ty : CdeParamType) (shift : Int)
    (mask value tgt : Nat) (hm : mask < U64MOD)
    (h32 : ty = CdeParamType.u32 → mask < U32MOD) :
    cdeReadTarget ty (gk20a_replace_data ty shift mask value tgt) &&& mask
        = cdeShiftedValue shift value &&& mask ∧
    cdeReadTarget ty (gk20a_replace_data ty shift mask value tgt)
        &&& ((U64MOD - 1) ^^^ mask)
      = cdeReadTarget ty tgt &&& ((U64MOD - 1) ^^^ mask) := by
  cases ty with
  | u64little =>
    exact replace_core mask (cdeShiftedValue shift value) tgt hm
  | u64big =>
    have hnv : ((swap32 tgt &&& ((U64MOD - 1) ^^^ mask)) |||
        (cdeShiftedValue shift value &&& mask)) < U64MOD := by
      have h1 : swap32 tgt &&& ((U64MOD - 1) ^^^ mask) < U64MOD :=
        lt_of_le_of_lt Nat.and_le_right (compl64_lt hm)
      have h2 : cdeShiftedValue shift value &&& mask < U64MOD :=
        lt_of_le_of_lt Nat.and_le_right hm
      unfold U64MOD at *
      exact Nat.or_lt_two_pow h1 h2
    have core := replace_core mask (cdeShiftedValue shift value) (swap32 tgt) hm
    simpa [gk20a_replace_data, cdeReadTarget, cdeWriteTarget, swap32_swap32 hnv]
      using core
  | u32 =>
    have hm32 : mask < U32MOD := h32 rfl
    have core := replace_core mask (cdeShiftedValue shift value) (tgt % U32MOD) hm
    have hread : cdeReadTarget CdeParamType.u32
        (gk20a_replace_data CdeParamType.u32 shift mask value tgt)
        = ((tgt % U32MOD &&& ((U64MOD - 1) ^^^ mask)) |||
           (cdeShiftedValue shift value &&& mask)) % U32MOD := by
      simp only [gk20a_replace_data, cdeReadTarget, cdeWriteTarget]
      rw [Nat.mul_add_mod', Nat.mod_mod_of_dvd _ dvd_rfl]
    constructor
    · rw [hread]
      unfold U32MOD at *
      rw [mod_two_pow_and_comm, core.1]
      exact Nat.mod_eq_of_lt (lt_of_le_of_lt Nat.and_le_right hm32)
    · rw [hread]
      show _ = tgt % U32MOD &&& ((U64MOD - 1) ^^^ mask)
      unfold U32MOD at *
      rw [mod_two_pow_and_comm, core.2]
      exact Nat.mod_eq_of_lt
        (lt_of_le_of_lt Nat.and_le_left (Nat.mod_lt _ (by positivity)))

/-- Witness for C8: concrete instance of the amended round trip with the
32-bit type, shift 4, mask 255 and value 3. -/
theorem C8_round_trip_witness :
    cdeReadTarget CdeParamType.u32
        (gk20a_replace_data CdeParamType.u32 4 255 3 4294967299) &&& 255
        = cdeShiftedValue 4 3 &&& 255 ∧
    cdeReadTarget CdeParamType.u32
        (gk20a_replace_data CdeParamType.u32 4 255 3 4294967299)
        &&& ((U64MOD - 1) ^^^ 255)
      = cdeReadTarget CdeParamType.u32 4294967299 &&& ((U64MOD - 1) ^^^ 255) :=
  C8_replace_data_round_trip CdeParamType.u32 4 255 3 4294967299
    (by norm_num [U64MOD]) (fun _ => by norm_num [U32MOD])

/-- Counterexample for C8 as frozen: with the 32-bit type and a mask whose
set bit lies above bit 31, the store truncates the patched word to 32 bits,
so reading back through the same type and mask does not recover the masked
bits of the shifted value. -/
theorem C8_counterexample :
    ¬ (cdeReadTarget CdeParamType.u32
        (gk20a_replace_data CdeParamType.u32 0 (2 ^ 32) (2 ^ 32) 0) &&& (2 ^ 32)
      = cdeShiftedValue 0 (2 ^ 32) &&& (2 ^ 32)) := by decide

theorem roundup_mul_mod (x y : Nat) : roundup x y % y = 0 := by
  unfold roundup
  exact Nat.mul_mod_left _ y

theorem tilepitch_mod_16 (x : Nat) : roundup x 64 / 4 % 16 = 0 := by
  unfold roundup
  rw [Nat.mul_div_assoc _ (by norm_num : (4 : Nat) ∣ 64)]
  norm_num [Nat.mul_mod_left]

/-- C9: geometry. For the non-transposed horizontal conversion with width
128 and height 64 the tile counts are 16 by 8, the work group is 16 by 8,
the grid is 1 by 1 and the divisibility check passes; and in general the
computation rejects with an error exactly when the aligned tile pitch is
not a multiple of the work-group width 16 or the aligned tile-row count is
not a multiple of the work-group height 8 (a condition the alignment in
fact always makes false). -/
theorem C9_geometry :
    cdeGeometryCheck NVHOST_GPU_COMPBITS_CDEH 128 64
        = Except.ok ⟨16, 8, 16, 8, 1, 1, 16, 8⟩ ∧
    ∀ consumer width height : Nat,
      (cdeGeometryCheck consumer width height = Except.error (-EINVAL)) ↔
        ((cdeGeometry consumer width height).tilepitch % 16 ≠ 0 ∨
         (cdeGeometry consumer width height).ytilesaligned % 8 ≠ 0) := by
  constructor
  · rfl
  · intro consumer width height
    have h1 : (cdeGeometry consumer width height).tilepitch % 16 = 0 :=
      tilepitch_mod_16 _
    have h2 : (cdeGeometry consumer width height).ytilesaligned % 8 = 0 :=
      roundup_mul_mod _ 8
    have hcheck : cdeGeometryCheck consumer width height
        = Except.ok (cdeGeometry consumer width height) := by
      unfold cdeGeometryCheck
      split
      · rename_i hcond
        exact absurd hcond (by push_neg; exact ⟨h1, h2⟩)
      · rfl
    rw [hcheck]
    simp [h1, h2]


/-- Counterexample for C4 as frozen: on an initialised two-slot pool whose
slot 0 reload fails with ENOMEM and whose slot 1 reload succeeds, the first
reported error is ENOMEM, yet gk20a_cde_reload returns 0, because the
single err variable is overwritten by every later slot. -/
theorem C4_counterexample :
    (gk20a_cde_reload ⟨true, 0, [true, true]⟩ [-ENOMEM, 0]).1 = 0 ∧
    firstSlotError [-ENOMEM, 0] = -ENOMEM ∧ (0 : Int) ≠ -ENOMEM := by decide

/-- C4 (amended): for every pool Reload on an already-initialised pool,
after attempting tear-down-and-reload of every slot the round-robin pointer
is reset to slot 0, each slot is recorded loaded exactly when its own
reload succeeded, and the value returned is the result of the last slot
reload attempt - earlier slot errors are overwritten, not returned. -/
theorem C4_reload_returns_last_error (app : CdeApp) (rs : List Int)
    (hinit : app.initialised = true) (_hne : rs ≠ []) :
    (gk20a_cde_reload app rs).1 = rs.getLastD 0 ∧
    (gk20a_cde_reload app rs).2.ctxPtr = 0 ∧
    (gk20a_cde_reload app rs).2.slots = rs.map (fun r => decide (r = 0)) := by
  unfold gk20a_cde_reload
  simp [hinit]

/-- Witness for C4: concrete reload of an initialised one-slot pool whose
slot fails with EINVAL; the returned value is that last (and only) result
and the pointer is reset to 0. -/
theorem C4_reload_witness :
    (gk20a_cde_reload ⟨true, 3, [true]⟩ [-EINVAL]).1 = [-EINVAL].getLastD 0 ∧
    (gk20a_cde_reload ⟨true, 3, [true]⟩ [-EINVAL]).2.ctxPtr = 0 ∧
    (gk20a_cde_reload ⟨true, 3, [true]⟩ [-EINVAL]).2.slots
      = [-EINVAL].map (fun r => decide (r = 0)) :=
  C4_reload_returns_last_error ⟨true, 3, [true]⟩ [-EINVAL] rfl (by decide)

/-- Counterexample for C5 as frozen: starting from an initialised pool with
two loaded slots, a Reload in which slot 0 fails and slot 1 succeeds resets
the pointer to 0 while leaving the pool marked initialised, so the pointer
then designates a slot that has not completed a successful load. -/
theorem C5_counterexample :
    ¬ pointerValid (gk20a_cde_reload ⟨true, 1, [true, true]⟩ [-ENOMEM, 0]).2 := by
  decide

/-- C5 (amended): the pointer invariant holds as long as every per-slot
load succeeds: an Initialize of an uninitialised pool whose loads all
succeed establishes it, a Reload of an initialised pool whose reloads all
succeed re-establishes it, and the advance step of Convert preserves it on
a pool whose slots are all loaded; a Reload with a failing slot 0 violates
it (see the counterexample). -/
theorem C5_pointer_invariant (app : CdeApp) (rs : List Int) :
    (app.initialised = false → (∀ r ∈ rs, r = 0) → rs ≠ [] →
      pointerValid (gk20a_init_cde_support app rs).2) ∧
    (app.initialised = true → (∀ r ∈ rs, r = 0) → rs ≠ [] →
      pointerValid (gk20a_cde_reload app rs).2 ∧
      allSlotsLoaded (gk20a_cde_reload app rs).2) ∧
    (allSlotsLoaded app → app.slots ≠ [] →
      pointerValid (gk20a_cde_convert_advance app).2) := by
  refine ⟨?_, ?_, ?_⟩
  · intro hinit hall hne
    unfold gk20a_init_cde_support
    have hfind : rs.find? (fun r => r != 0) = none := by
      rw [List.find?_eq_none]
      intro r hr
      simp [hall r hr]
    intro h
    simp only [hinit, Bool.false_eq_true, if_false, hfind]
    rcases rs with _ | ⟨r0, rest⟩
    · exact absurd rfl hne
    · simp
  · intro hinit hall hne
    have hslots : rs.map (fun r => decide (r = 0)) = rs.map (fun _ => true) := by
      apply List.map_congr_left
      intro r hr
      simp [hall r hr]
    constructor
    · intro h
      unfold gk20a_cde_reload
      simp only [hinit, if_true]
      rcases rs with _ | ⟨r0, rest⟩
      · exact absurd rfl hne
      · simp [hall r0 (by simp)]
    · intro b hb
      unfold gk20a_cde_reload at hb
      simp only [hinit, if_true] at hb
      simp only [List.mem_map] at hb
      obtain ⟨r, hr, hrb⟩ := hb
      rw [← hrb]
      simp [hall r hr]
  · intro hall hne
    intro h
    unfold gk20a_cde_convert_advance
    have hlen : 0 < app.slots.length := List.length_pos.mpr hne
    have hlt : (app.ctxPtr + 1) % app.slots.length < app.slots.length :=
      Nat.mod_lt _ hlen
    have := List.getD_eq_getElem app.slots false hlt
    rw [this]
    exact hall _ (List.getElem_mem _)

/-- Witness for C5: the amended invariant applied to a concrete
uninitialised two-slot pool whose loads both succeed. -/
theorem C5_pointer_invariant_witness :
    pointerValid (gk20a_init_cde_support ⟨false, 0, [false, false]⟩ [0, 0]).2 :=
  (C5_pointer_invariant ⟨false, 0, [false, false]⟩ [0, 0]).1 rfl
    (by decide) (by decide)

/-! ## Claim theorems on the image parser, patcher, convert and tracker -/

/-- C3: for every firmware image that passes the header and element-array
size checks and whose elements are all handled without error, parsing
succeeds iff both an init and a convert command list were declared with
nonzero entry counts; when either is missing the parse returns the EINVAL
error and the context it leaves behind is the torn-down one produced by
gk20a_deinit_cde_img. -/
theorem C3_img_success_iff_both_cmds (env : CdeEnv) (img : FwImage)
    (ctx s : CdeCtx) (evs : List CdeEvent)
    (h1 : 8 ≤ img.size)
    (h2 : 8 + img.elems.length * CDE_HDR_ELEM_SIZE ≤ img.size)
    (hloop : processElems env img.size img.elems ctx = (0, s, evs)) :
    ((gk20a_init_cde_img env img ctx).1 = 0 ↔
      (s.initCmd ≠ none ∧ s.initCmdNumEntries ≠ 0 ∧
       s.convertCmd ≠ none ∧ s.convertCmdNumEntries ≠ 0)) ∧
    ((gk20a_init_cde_img env img ctx).1 ≠ 0 →
      (gk20a_init_cde_img env img ctx).2.1 = (gk20a_deinit_cde_img s).1) := by
  have c1 : ¬ (img.size < 8) := by omega
  have c2 : ¬ (img.size < 8 + img.elems.length * CDE_HDR_ELEM_SIZE) := by omega
  simp only [gk20a_init_cde_img]
  rw [if_neg c1, if_neg c2, hloop]
  by_cases hi : s.initCmd = none ∨ s.initCmdNumEntries = 0
  · simp only [ne_eq, not_true_eq_false, if_true, if_false]
    simp [hi, EINVAL]
    tauto
  · by_cases hc : s.convertCmd = none ∨ s.convertCmdNumEntries = 0
    · simp [hi, hc, EINVAL]
      tauto
    · simp [hi, hc]
      tauto

/-- Witness for C3: the all-succeeding oracle and the image declaring both
command lists parse successfully. -/
theorem C3_img_witness :
    (gk20a_init_cde_img envAllOk imgBothCmds emptyCdeCtx).1 = 0 :=
  (C3_img_success_iff_both_cmds envAllOk imgBothCmds emptyCdeCtx _ _
      (by norm_num [imgBothCmds])
      (by norm_num [imgBothCmds, CDE_HDR_ELEM_SIZE])
      rfl).1.mpr
    (by refine ⟨?_, ?_, ?_, ?_⟩ <;> decide)

/-- Evaluation for C6 at the failing input: with the buffer table exactly
full (num_bufs equal to MAX_CDE_BUFS) and an allocator that succeeds,
gk20a_init_cde_buf does not reject the declaration: its strict
greater-than guard passes, the function returns 0, registers a new buffer
and raises the count past the table size. -/
theorem C6_table_full_declaration_accepted :
    (gk20a_init_cde_buf envAllOk 1000 ctxTableFull ⟨0, 16, fun _ => 0⟩).1 = 0 ∧
    (gk20a_init_cde_buf envAllOk 1000 ctxTableFull
        ⟨0, 16, fun _ => 0⟩).2.1.numBufs = MAX_CDE_BUFS + 1 :=
  ⟨rfl, rfl⟩

/-- Evaluation for C7 at the failing input: a declaration on which the
device-coherent allocation succeeds with cpuva token 7 and the
scatter-gather-table construction fails. The function propagates ENOMEM
and leaves the buffer count unchanged, but the only dma_free_coherent it
performs receives the address of the cpuva field rather than the allocated
cpuva value, so the allocation itself is never freed. -/
theorem C7_cleanup_frees_field_address :
    (gk20a_init_cde_buf envSgFail 1000 emptyCdeCtx ⟨0, 16, fun _ => 0⟩).1
        = -ENOMEM ∧
    (gk20a_init_cde_buf envSgFail 1000 emptyCdeCtx
        ⟨0, 16, fun _ => 0⟩).2.1.numBufs = 0 ∧
    (gk20a_init_cde_buf envSgFail 1000 emptyCdeCtx ⟨0, 16, fun _ => 0⟩).2.2
        = [CdeEvent.dmaFreeCoherent (HostPtr.cpuvaFieldAddr 7)] ∧
    CdeEvent.dmaFreeCoherent (HostPtr.cpuvaValue 7) ∉
      (gk20a_init_cde_buf envSgFail 1000 emptyCdeCtx ⟨0, 16, fun _ => 0⟩).2.2 := by
  refine ⟨rfl, rfl, rfl, ?_⟩
  decide

/-- C10: when the source-SMMU-address lookup returns 0 during parameter
patching, the EINVAL assignment in the source is dead: the following
gk20a_replace_data call overwrites the local err, the loop continues, the
function returns success, and the zero address (plus the constant offset,
zero here) is patched into the target buffer, overwriting its previous
all-ones cell with zero. -/
theorem C10_zero_smmu_addr_patched_as_success :
    (gk20a_cde_patch_params gpuEnvIovaZero ctxSmmu).1 = 0 ∧
    ((gk20a_cde_patch_params gpuEnvIovaZero ctxSmmu).2.bufs.getD 0
        dummyMem).cell 0 = 0 ∧
    (ctxSmmu.bufs.getD 0 dummyMem).cell 0 ≠ 0 := by
  refine ⟨rfl, by decide, by decide⟩

/-- Evaluation for C1 at the failing input: pool initialised, both dma-bufs
successfully mapped (virtual addresses 4096 and 8192), the selected channel
has previously timed out and the whole-pool reload fails with ENOMEM. The
call returns the reload error while both mappings are still in place - no
unmap event follows either map event - although the pool lock has been
released exactly once. -/
theorem C1_timeout_reload_failure_leaks_mappings :
    (gk20a_cde_convert envTimeoutReloadFail).1 = -ENOMEM ∧
    CvtEvent.vmMapDst 4096 ∈ (gk20a_cde_convert envTimeoutReloadFail).2 ∧
    CvtEvent.vmMapSrc 8192 ∈ (gk20a_cde_convert envTimeoutReloadFail).2 ∧
    CvtEvent.vmUnmapDst 4096 ∉ (gk20a_cde_convert envTimeoutReloadFail).2 ∧
    CvtEvent.vmUnmapSrc 8192 ∉ (gk20a_cde_convert envTimeoutReloadFail).2 ∧
    ((gk20a_cde_convert envTimeoutReloadFail).2.count CvtEvent.lock
      = (gk20a_cde_convert envTimeoutReloadFail).2.count CvtEvent.unlock) := by
  decide

/-- Evaluation for C2 at the failing input: a surface with nonzero valid
bits (the base GPU bit) and a tracked fence, asked for request none. The
unimplemented-decompression path is taken and the valid-bits mask is left
unchanged, as the claim says, but the function returns 0 to the caller:
the EINVAL the source computes on this path is discarded by the final
return 0. -/
theorem C2_request_none_error_not_returned :
    (gk20a_prepare_compressible_read envPrepOk
        ⟨NVHOST_GPU_COMPBITS_GPU, some 42⟩ NVHOST_GPU_COMPBITS_NONE).1 = 0 ∧
    (gk20a_prepare_compressible_read envPrepOk
        ⟨NVHOST_GPU_COMPBITS_GPU, some 42⟩
        NVHOST_GPU_COMPBITS_NONE).2.1.validCompbits
      = NVHOST_GPU_COMPBITS_GPU ∧
    (gk20a_prepare_compressible_read envPrepOk
        ⟨NVHOST_GPU_COMPBITS_GPU, some 42⟩ NVHOST_GPU_COMPBITS_NONE).2.1.fence
      = none := by
  decide
